import Mathlib

set_option autoImplicit false

namespace OpencodeSentry

/-! Shallow embedding of `src/index.ts` of the opencode-sentry plugin: the
TRACEPARENT importer, the OpenTelemetry context-manager patch, the spanStart
relabeling handler, and the lifecycle-event router. -/

/-- Accumulator-based splitting of a character list at a separator, the
recursion behind `jsSplit`. -/
def splitChars (sep : Char) : List Char → List Char → List (List Char)
  | [], acc => [acc.reverse]
  | c :: cs, acc =>
      if c == sep then acc.reverse :: splitChars sep cs []
      else splitChars sep cs (c :: acc)

/-- JavaScript `s.split(sep)` for a single-character separator, as used by
`traceparent.split(<hyphen>)` in the source: the list of maximal chunks
between separator occurrences, including empty chunks, and `[""]` on the
empty string. -/
def jsSplit (s : String) (sep : Char) : List String :=
  (splitChars sep s.data []).map (fun cs => String.mk cs)

/-- Result of parsing the TRACEPARENT environment variable, mirroring the three
locals `parentTraceId`, `parentSpanId`, `sampled` of `createSentryPlugin`
(src/index.ts lines 124-136): the trace id and span id stay unset (`none`)
unless the header splits on the hyphen into exactly 4 segments, and `sampled`
is initialised to `true` and only overwritten in the 4-segment case. -/
def parseTraceparent (traceparent : Option String) :
    Option String × Option String × Bool :=
  match traceparent with
  | none => (none, none, true)
  | some tp =>
      let parts := jsSplit tp '-'
      if parts.length = 4 then
        (parts[1]?, parts[2]?, parts[3]? == some "01")
      else
        (none, none, true)

/-- OpenTelemetry span context as built by the plugin (src/index.ts 168-173). -/
structure SpanContext where
  traceId : String
  spanId : String
  traceFlags : Nat
  isRemote : Bool
deriving DecidableEq

namespace TraceFlags

/-- Value of `otel.TraceFlags.SAMPLED`. -/
def SAMPLED : Nat := 1

/-- Value of `otel.TraceFlags.NONE`. -/
def NONE : Nat := 0

end TraceFlags

/-- OpenTelemetry context: the only content this plugin ever reads from a
context is the span stored under the span key, as returned by
`otel.trace.getSpan`; the span is represented by its span context. -/
structure Context where
  span : Option SpanContext
deriving DecidableEq

/-- The read performed by `otel.trace.getSpan(context)`. -/
def getSpan (ctx : Context) : Option SpanContext := ctx.span

/-- The write performed by `otel.trace.setSpanContext(context, spanContext)`:
a context carrying the given span context. -/
def setSpanContext (ctx : Context) (sc : SpanContext) : Context :=
  { ctx with span := some sc }

/-- The context manager as typed by the source at src/index.ts 178-181: an
`active` operation, modelled as a function of the underlying ambient state so
that successive calls may observe different states, and an optional
scoped-execution operation (named `with` in the source, a Lean keyword, hence
`withOp` here); the source only checks that operation for presence and never
calls or modifies it. -/
structure ContextManager where
  active : Context → Context
  withOp : Option (Context → (Context → Context) → Context)

/-- The `otel.context` API object as accessed by the source (src/index.ts
178-182): an optional private method `_getContextManager`, whose call may
itself return nothing, and an optional private field `_contextManager`. -/
structure OtelContextApi where
  getContextManager : Option (Option ContextManager)
  contextManager : Option ContextManager

/-- Mirrors `otelContext._getContextManager?.() || otelContext._contextManager`
(src/index.ts 182): optionally call the method and fall back to the field when
the method is absent or its call returns nothing. -/
def lookupContextManager (api : OtelContextApi) : Option ContextManager :=
  match api.getContextManager with
  | some (some m) => some m
  | _ => api.contextManager

/-- The patch installed over `contextManager.active` when the manager exposes
the `with` capability (src/index.ts 184-192): the replacement calls the
original operation to get `current` and keeps it when it holds a span, else
returns the root context; a manager without `with` is returned unchanged. -/
def patchContextManager (m : ContextManager) (rootContext : Context) :
    ContextManager :=
  if m.withOp.isSome then
    { m with
      active := fun ambient =>
        let current := m.active ambient
        if (getSpan current).isSome then current else rootContext }
  else m

/-- The `parentContext : otel.SpanContext` literal of src/index.ts 168-173. -/
def remoteParentContext (parentTraceId parentSpanId : String)
    (sampled : Bool) : SpanContext :=
  { traceId := parentTraceId
    spanId := parentSpanId
    traceFlags := if sampled then TraceFlags.SAMPLED else TraceFlags.NONE
    isRemote := true }

/-- Observable outcome of the tracing setup of src/index.ts 124-193: the
remote-parent span context and the root context, when constructed, and the
resulting context manager, patched or not. -/
structure TracingSetup where
  remoteParent : Option SpanContext
  rootContext : Option Context
  manager : Option ContextManager

/-- Outcome when the patch branch is not taken: nothing is constructed and the
looked-up manager is left exactly as found. -/
def noPatchSetup (api : OtelContextApi) : TracingSetup :=
  { remoteParent := none, rootContext := none, manager := lookupContextManager api }

/-- Tracing part of `createSentryPlugin` (src/index.ts 124-193): parse
TRACEPARENT; when both extracted ids are truthy, which for the optional
strings of the `if (parentTraceId && parentSpanId)` guard at line 167 means
present and non-empty, build the remote parent span context, attach it to the
context active at install time to obtain the root context, and patch the
looked-up context manager when it exposes `with`. -/
def setupTracing (traceparent : Option String) (installActive : Context)
    (api : OtelContextApi) : TracingSetup :=
  match parseTraceparent traceparent with
  | (some parentTraceId, some parentSpanId, sampled) =>
      if !parentTraceId.isEmpty && !parentSpanId.isEmpty then
        let parentContext := remoteParentContext parentTraceId parentSpanId sampled
        let ctx := setSpanContext installActive parentContext
        { remoteParent := some parentContext
          rootContext := some ctx
          manager := (lookupContextManager api).map
            (fun m => patchContextManager m ctx) }
      else
        noPatchSetup api
  | _ => noPatchSetup api

/-- A Sentry span as seen by the `spanStart` handler (src/index.ts 199-213):
a name and a string attribute map read through `span.attributes` and written
through `span.setAttribute`. -/
structure SpanRec where
  name : String
  attributes : List (String × String)
deriving DecidableEq

/-- Attribute lookup `attrs[key]`: the value of the first binding of `key`. -/
def getAttr (attrs : List (String × String)) (key : String) : Option String :=
  match attrs with
  | [] => none
  | (k, v) :: rest => if k == key then some v else getAttr rest key

/-- Update-or-append of a binding, the effect of `setAttribute(key, value)` on
the attribute map. -/
def setAttr (attrs : List (String × String)) (key value : String) :
    List (String × String) :=
  match attrs with
  | [] => [(key, value)]
  | (k, v) :: rest =>
      if k == key then (key, value) :: rest else (k, v) :: setAttr rest key value

/-- The effect of `span.setAttribute(key, value)`. -/
def SpanRec.setAttribute (s : SpanRec) (key value : String) : SpanRec :=
  { s with attributes := setAttr s.attributes key value }

/-- JavaScript truthiness of a possibly-absent string value: present and
non-empty (`undefined` and the empty string are falsy). -/
def jsTruthyStr (a : Option String) : Bool :=
  match a with
  | some s => !s.isEmpty
  | none => false

/-- JavaScript `a || b` on possibly-absent string values: `a` unless it is
absent or falsy, else `b`. -/
def jsOrStr (a b : Option String) : Option String :=
  match a with
  | some s => if s.isEmpty then b else some s
  | none => b

/-- The guarded write `if (x) span.setAttribute(key, x)` of the source, for a
possibly-absent string value: write only when the value is truthy. -/
def condSetAttribute (sp : SpanRec) (key : String) (mv : Option String) : SpanRec :=
  match mv with
  | some s => if s.isEmpty then sp else sp.setAttribute key s
  | none => sp

/-- The `spanStart` handler (src/index.ts 199-213): a span named exactly
`ai.streamText.doStream` or `ai.generateText.doGenerate` gets
`sentry.op = gen_ai.chat`, and its model and provider are copied into the
canonical attributes using the JavaScript `||` fallback between the two
source attributes and a truthiness guard before each write; every other span
is left as it is. -/
def spanStartHandler (span : SpanRec) : SpanRec :=
  let spanName := span.name
  if spanName == "ai.streamText.doStream" || spanName == "ai.generateText.doGenerate" then
    let span1 := span.setAttribute "sentry.op" "gen_ai.chat"
    let attrs := span1.attributes
    let model := jsOrStr (getAttr attrs "ai.model.id") (getAttr attrs "gen_ai.request.model")
    let provider := jsOrStr (getAttr attrs "ai.model.provider") (getAttr attrs "gen_ai.system")
    let span2 := condSetAttribute span1 "gen_ai.request.model" model
    let span3 := condSetAttribute span2 "gen_ai.system" provider
    span3
  else
    span

/-- The relabeling as the words of the spec state it, for comparison with
`spanStartHandler`: the first PRESENT source wins, presence rather than
JavaScript truthiness, and a present source always sets the destination. -/
def spanStartClaimed (span : SpanRec) : SpanRec :=
  if span.name == "ai.streamText.doStream" || span.name == "ai.generateText.doGenerate" then
    let span1 := span.setAttribute "sentry.op" "gen_ai.chat"
    let attrs := span1.attributes
    let model := (getAttr attrs "ai.model.id") <|> (getAttr attrs "gen_ai.request.model")
    let provider := (getAttr attrs "ai.model.provider") <|> (getAttr attrs "gen_ai.system")
    let span2 :=
      match model with
      | some s => span1.setAttribute "gen_ai.request.model" s
      | none => span1
    let span3 :=
      match provider with
      | some s => span2.setAttribute "gen_ai.system" s
      | none => span2
    span3
  else
    span

/-- JavaScript values relevant to the error-capturing handlers: plain strings
and `Error` objects carrying a message. -/
inductive JSVal where
  | str (s : String)
  | errObj (message : String)
deriving DecidableEq

/-- JavaScript truthiness of the modelled values: an `Error` object is always
truthy, a string is truthy iff non-empty. -/
def jsTruthyVal (v : JSVal) : Bool :=
  match v with
  | .str s => !s.isEmpty
  | .errObj _ => true

/-- JavaScript `String(v)` for the modelled values. -/
def jsString (v : JSVal) : String :=
  match v with
  | .str s => s
  | .errObj message => "Error: " ++ message

/-- The coercion `error instanceof Error ? error : new Error(String(error))`
performed before each capture (src/index.ts 246 and 280). -/
def toException (v : JSVal) : JSVal :=
  match v with
  | .errObj m => .errObj m
  | .str s => .errObj (jsString (.str s))

/-- Values appearing in breadcrumb `data` records. -/
inductive BreadcrumbValue where
  | str (s : String)
  | optStr (s : Option String)
  | keys (ks : List String)
deriving DecidableEq

/-- Calls issued against the Sentry SDK by the event handlers. -/
inductive Effect where
  | addBreadcrumb (category message level : String)
      (data : List (String × BreadcrumbValue))
  | captureException (exn : JSVal) (tags : List (String × String))
  | flush (timeout : Nat)
deriving DecidableEq

/-- Lifecycle events dispatched to the `event` hook; `other` stands for every
event type outside the three handled cases of the switch. -/
inductive Event where
  | sessionCreated (id : Option String)
  | sessionError (error : Option JSVal)
  | sessionIdle
  | other (typeName : String)
deriving DecidableEq

/-- The `event` hook (src/index.ts 228-262) as the list of SDK calls it makes,
in order. -/
def handleEvent (event : Event) : List Effect :=
  match event with
  | .sessionCreated id =>
      [.addBreadcrumb "session" "Session created" "info" [("sessionId", .optStr id)]]
  | .sessionError error =>
      match error with
      | some e =>
          if jsTruthyVal e then
            [.captureException (toException e) [("source", "session.error")]]
          else []
      | none => []
  | .sessionIdle =>
      [.addBreadcrumb "session" "Session completed" "info" [], .flush 2000]
  | .other _ => []

/-- The `tool.execute.before` hook (src/index.ts 264-274). -/
def toolExecuteBefore (tool : String) (argKeys : List String) : List Effect :=
  [.addBreadcrumb "tool" ("Tool: " ++ tool) "info"
    [("tool", .str tool), ("argKeys", .keys argKeys)]]

/-- The `tool.execute.after` hook (src/index.ts 276-287): when
`output.metadata?.error` is truthy, capture it, coerced to an exception,
tagged with the source and the tool name; otherwise do nothing. -/
def toolExecuteAfter (tool : String) (metadataError : Option JSVal) :
    List Effect :=
  match metadataError with
  | some e =>
      if jsTruthyVal e then
        [.captureException (toException e)
          [("source", "tool.execute"), ("tool", tool)]]
      else []
  | none => []

/-- Modelled from the spec: the resolution time of `Sentry.flush(timeout)` is
owned by the external Sentry SDK, whose code is not part of this repository.
Per the spec the wait resolves when the buffered telemetry is flushed or the
timeout elapses, whichever comes first; a flush that never completes (`none`)
resolves at the timeout. -/
def flushWait (flushCompletion : Option Nat) (timeout : Nat) : Nat :=
  match flushCompletion with
  | none => timeout
  | some t => min t timeout

/-- A context with no span. -/
def emptyContext : Context := { span := none }

/-- A context manager whose underlying `active` returns the ambient state
unchanged and which exposes a scoped-execution operation. -/
def testManager : ContextManager :=
  { active := fun ambient => ambient
    withOp := some (fun ctx f => f ctx) }

/-- A context manager without the scoped-execution capability. -/
def testManagerNoWith : ContextManager :=
  { active := fun ambient => ambient, withOp := none }

/-- An API exposing `testManager` through the private method. -/
def testApi : OtelContextApi :=
  { getContextManager := some (some testManager), contextManager := none }

/-- An API exposing only a manager without the `with` capability. -/
def testApiNoWith : OtelContextApi :=
  { getContextManager := some (some testManagerNoWith), contextManager := none }

/-- An API exposing no context manager at all. -/
def testApiNoManager : OtelContextApi :=
  { getContextManager := none, contextManager := none }

/-- The root context produced by the setup for the header 00-abc-def-01 when
the context active at install time is empty. -/
def testRoot : Context :=
  setSpanContext emptyContext (remoteParentContext "abc" "def" true)

/-- A span context standing for an explicitly started local span. -/
def localSpanContext : SpanContext :=
  { traceId := "t1", spanId := "s1", traceFlags := 1, isRemote := false }

/-- A context that already carries a span. -/
def contextWithSpan : Context := { span := some localSpanContext }

/-- Concrete span on which the code and the first-present-source reading of
the spec disagree: `ai.model.id` is present but empty. -/
def cexSpan : SpanRec :=
  { name := "ai.streamText.doStream"
    attributes := [("ai.model.id", ""), ("gen_ai.request.model", "gpt-4")] }

/-- The example span of the spec: named `ai.streamText.doStream` with
`ai.model.id = gpt-4`. -/
def relabelSpan : SpanRec :=
  { name := "ai.streamText.doStream"
    attributes := [("ai.model.id", "gpt-4")] }

/-! Theorems. -/

/-- Helper: a string that is not the empty string has `isEmpty = false`. -/
theorem isEmpty_eq_false_of_ne (s : String) (h : s ≠ "") : s.isEmpty = false := by
  cases hs : s.isEmpty
  · rfl
  · exact absurd ((String.isEmpty_iff s).mp hs) h

/-- Helper: a string with `isEmpty = false` is not the empty string. -/
theorem ne_empty_of_isEmpty_false (s : String) (h : s.isEmpty = false) : s ≠ "" := by
  intro he
  subst he
  exact absurd h (by decide)

/-- Claim C3: a TRACEPARENT header that does not split on the ASCII hyphen into
exactly 4 segments, and an absent header, extract no trace id and no span id;
and whenever the segment count is 4, the two ids are taken verbatim from
segments 1 and 2 with no further validation of their format. -/
theorem traceparent_segment_count_gate :
    (parseTraceparent none = (none, none, true)) ∧
    (∀ tp : String, (jsSplit tp '-').length ≠ 4 →
      parseTraceparent (some tp) = (none, none, true)) ∧
    (∀ tp : String, (jsSplit tp '-').length = 4 →
      parseTraceparent (some tp) =
        ((jsSplit tp '-')[1]?, (jsSplit tp '-')[2]?,
          (jsSplit tp '-')[3]? == some "01")) := by
  refine ⟨rfl, ?_, ?_⟩
  · intro tp h
    simp [parseTraceparent, h]
  · intro tp h
    simp [parseTraceparent, h]

/-- Witness for C3 at concrete headers: a 3-segment header and an 18-segment
non-hex header. -/
theorem traceparent_segment_count_gate_witness :
    parseTraceparent (some "00-abc-def") = (none, none, true) ∧
    parseTraceparent (some "this is not a trace header") =
      (none, none, true) := by
  refine ⟨?_, ?_⟩
  · exact traceparent_segment_count_gate.2.1 "00-abc-def" (by decide)
  · exact traceparent_segment_count_gate.2.1 "this is not a trace header" (by decide)

/-- Claim C4: with exactly 4 segments, `sampled` is true iff the flags segment
is the literal string 01, and the two concrete headers of the claim parse to
exactly the stated triples. -/
theorem traceparent_sampled_iff_flags01 :
    (∀ tp : String, (jsSplit tp '-').length = 4 →
      ((parseTraceparent (some tp)).2.2 = true ↔
        (jsSplit tp '-')[3]? = some "01")) ∧
    parseTraceparent (some "00-4bf92f3577b34da6a3ce929d0e0e4736-00f067aa0ba902b7-01") =
      (some "4bf92f3577b34da6a3ce929d0e0e4736", some "00f067aa0ba902b7", true) ∧
    parseTraceparent (some "00-4bf92f3577b34da6a3ce929d0e0e4736-00f067aa0ba902b7-00") =
      (some "4bf92f3577b34da6a3ce929d0e0e4736", some "00f067aa0ba902b7", false) := by
  refine ⟨?_, by decide, by decide⟩
  intro tp h
  simp [parseTraceparent, h]

/-- Witness for C4: the iff instantiated at a concrete sampled header. -/
theorem traceparent_sampled_iff_flags01_witness :
    (parseTraceparent (some "00-aaaa-bbbb-01")).2.2 = true ↔
      (jsSplit "00-aaaa-bbbb-01" '-')[3]? = some "01" :=
  traceparent_sampled_iff_flags01.1 "00-aaaa-bbbb-01" (by decide)

/-- Helper: shape of the setup when parsing succeeds with truthy ids. -/
theorem setupTracing_success (traceparent : Option String) (installActive : Context)
    (api : OtelContextApi) (tid sid : String) (smp : Bool)
    (hp : parseTraceparent traceparent = (some tid, some sid, smp))
    (ht : tid.isEmpty = false) (hs : sid.isEmpty = false) :
    setupTracing traceparent installActive api =
      { remoteParent := some (remoteParentContext tid sid smp)
        rootContext := some (setSpanContext installActive (remoteParentContext tid sid smp))
        manager := (lookupContextManager api).map (fun m =>
          patchContextManager m
            (setSpanContext installActive (remoteParentContext tid sid smp))) } := by
  unfold setupTracing
  rw [hp]
  simp [ht, hs]

/-- Helper: the setup takes the no-patch branch whenever either extracted id
fails the JavaScript truthiness test of the guard. -/
theorem setupTracing_skip_of_not_truthy (traceparent : Option String)
    (installActive : Context) (api : OtelContextApi)
    (h : jsTruthyStr (parseTraceparent traceparent).1 = false ∨
         jsTruthyStr (parseTraceparent traceparent).2.1 = false) :
    setupTracing traceparent installActive api = noPatchSetup api := by
  rcases hp : parseTraceparent traceparent with ⟨tid?, sid?, smp⟩
  rw [hp] at h
  unfold setupTracing
  rw [hp]
  rcases tid? with _ | tid
  · rfl
  · rcases sid? with _ | sid
    · rfl
    · rcases h with h | h
      · simp [jsTruthyStr] at h
        simp [h]
      · simp [jsTruthyStr] at h
        simp [h]

/-- Helper: the patched get-active operation returns the root context when the
original operation produced a context with no span. -/
theorem patchContextManager_active_no_span (m : ContextManager)
    (root ambient : Context)
    (hw : m.withOp.isSome = true) (hns : getSpan (m.active ambient) = none) :
    (patchContextManager m root).active ambient = root := by
  simp [patchContextManager, hw, hns]

/-- Helper: the patched get-active operation returns the current context
unchanged when the original operation produced a context with a span. -/
theorem patchContextManager_active_keeps_span (m : ContextManager)
    (root ambient : Context) (sc : SpanContext)
    (hw : m.withOp.isSome = true)
    (hs : getSpan (m.active ambient) = some sc) :
    (patchContextManager m root).active ambient = m.active ambient := by
  simp [patchContextManager, hw, hs]

/-- Helper: patching never changes the scoped-execution operation. -/
theorem patchContextManager_withOp (m : ContextManager) (root : Context) :
    (patchContextManager m root).withOp = m.withOp := by
  unfold patchContextManager
  split <;> rfl

/-- Helper: patching a manager without the with capability is the identity. -/
theorem patchContextManager_of_no_withOp (m : ContextManager) (root : Context)
    (h : m.withOp = none) : patchContextManager m root = m := by
  simp [patchContextManager, h]

/-- Helper: in every branch the resulting manager is either exactly the
looked-up one or the looked-up one patched with the constructed root. -/
theorem setupTracing_manager_shape (traceparent : Option String)
    (installActive : Context) (api : OtelContextApi) :
    setupTracing traceparent installActive api = noPatchSetup api ∨
    ∃ root, (setupTracing traceparent installActive api).rootContext = some root ∧
      (setupTracing traceparent installActive api).manager =
        (lookupContextManager api).map (fun m => patchContextManager m root) := by
  rcases hp : parseTraceparent traceparent with ⟨tid?, sid?, smp⟩
  rcases tid? with _ | tid
  · exact Or.inl (setupTracing_skip_of_not_truthy _ _ _ (Or.inl (by rw [hp]; rfl)))
  rcases sid? with _ | sid
  · exact Or.inl (setupTracing_skip_of_not_truthy _ _ _ (Or.inr (by rw [hp]; rfl)))
  cases ht : tid.isEmpty
  · cases hs : sid.isEmpty
    · refine Or.inr ⟨setSpanContext installActive (remoteParentContext tid sid smp), ?_, ?_⟩
      · rw [setupTracing_success traceparent installActive api tid sid smp hp ht hs]
      · rw [setupTracing_success traceparent installActive api tid sid smp hp ht hs]
    · exact Or.inl (setupTracing_skip_of_not_truthy _ _ _
        (Or.inr (by rw [hp]; simp [jsTruthyStr, hs])))
  · exact Or.inl (setupTracing_skip_of_not_truthy _ _ _
      (Or.inl (by rw [hp]; simp [jsTruthyStr, ht])))

/-- Claim C1: after successful installation of the patch (the header produced
truthy ids, a manager was found and it exposes the with capability), a call of
the patched get-active operation in a state where the original operation
returns a context containing no span yields the root context, whose span
context is the remote parent built from the imported triple and whose trace id
is the imported trace id. -/
theorem patched_active_returns_remote_root
    (traceparent : Option String) (installActive ambient : Context)
    (api : OtelContextApi) (m : ContextManager) (root : Context)
    (hm : lookupContextManager api = some m)
    (hw : m.withOp.isSome = true)
    (hroot : (setupTracing traceparent installActive api).rootContext = some root)
    (hns : getSpan (m.active ambient) = none) :
    ∃ mp, (setupTracing traceparent installActive api).manager = some mp ∧
      mp.active ambient = root ∧
      ∃ parentTraceId parentSpanId sampled,
        parseTraceparent traceparent = (some parentTraceId, some parentSpanId, sampled) ∧
        getSpan root = some (remoteParentContext parentTraceId parentSpanId sampled) ∧
        (remoteParentContext parentTraceId parentSpanId sampled).traceId = parentTraceId := by
  rcases hp : parseTraceparent traceparent with ⟨tid?, sid?, smp⟩
  rcases tid? with _ | tid
  · rw [setupTracing_skip_of_not_truthy traceparent installActive api
      (Or.inl (by rw [hp]; rfl))] at hroot
    simp [noPatchSetup] at hroot
  rcases sid? with _ | sid
  · rw [setupTracing_skip_of_not_truthy traceparent installActive api
      (Or.inr (by rw [hp]; rfl))] at hroot
    simp [noPatchSetup] at hroot
  cases ht : tid.isEmpty
  case true =>
    rw [setupTracing_skip_of_not_truthy traceparent installActive api
      (Or.inl (by rw [hp]; simp [jsTruthyStr, ht]))] at hroot
    simp [noPatchSetup] at hroot
  cases hs : sid.isEmpty
  case true =>
    rw [setupTracing_skip_of_not_truthy traceparent installActive api
      (Or.inr (by rw [hp]; simp [jsTruthyStr, hs]))] at hroot
    simp [noPatchSetup] at hroot
  rw [setupTracing_success traceparent installActive api tid sid smp hp ht hs] at hroot ⊢
  replace hroot : setSpanContext installActive (remoteParentContext tid sid smp) = root := by
    simpa using hroot
  subst hroot
  refine ⟨patchContextManager m (setSpanContext installActive (remoteParentContext tid sid smp)),
    by simp [hm], ?_, tid, sid, smp, rfl, rfl, rfl⟩
  exact patchContextManager_active_no_span m _ ambient hw hns

/-- Witness for C1 at a concrete header, api and ambient state. -/
theorem patched_active_returns_remote_root_witness :
    ∃ mp, (setupTracing (some "00-abc-def-01") emptyContext testApi).manager = some mp ∧
      mp.active emptyContext = testRoot ∧
      ∃ parentTraceId parentSpanId sampled,
        parseTraceparent (some "00-abc-def-01") =
          (some parentTraceId, some parentSpanId, sampled) ∧
        getSpan testRoot = some (remoteParentContext parentTraceId parentSpanId sampled) ∧
        (remoteParentContext parentTraceId parentSpanId sampled).traceId = parentTraceId :=
  patched_active_returns_remote_root (some "00-abc-def-01") emptyContext emptyContext
    testApi testManager testRoot rfl rfl (by decide) rfl

/-- Claim C2: after successful installation, a call of the patched get-active
operation in a state where the original operation returns a context that
already contains a span yields that context unchanged. -/
theorem patched_active_keeps_current
    (traceparent : Option String) (installActive ambient : Context)
    (api : OtelContextApi) (m : ContextManager) (root : Context) (sc : SpanContext)
    (hm : lookupContextManager api = some m)
    (hw : m.withOp.isSome = true)
    (hroot : (setupTracing traceparent installActive api).rootContext = some root)
    (hs : getSpan (m.active ambient) = some sc) :
    ∃ mp, (setupTracing traceparent installActive api).manager = some mp ∧
      mp.active ambient = m.active ambient := by
  rcases setupTracing_manager_shape traceparent installActive api with hshape | ⟨root2, _, hmgr⟩
  · rw [hshape] at hroot
    simp [noPatchSetup] at hroot
  · refine ⟨patchContextManager m root2, ?_, ?_⟩
    · rw [hmgr, hm]
      rfl
    · exact patchContextManager_active_keeps_span m root2 ambient sc hw hs

/-- Witness for C2: with a span already active in the underlying state, the
patched operation returns that state, not the remote-parent root. -/
theorem patched_active_keeps_current_witness :
    ∃ mp, (setupTracing (some "00-abc-def-01") emptyContext testApi).manager = some mp ∧
      mp.active contextWithSpan = testManager.active contextWithSpan :=
  patched_active_keeps_current (some "00-abc-def-01") emptyContext contextWithSpan
    testApi testManager testRoot localSpanContext rfl rfl (by decide) rfl

/-- Claim C5: when no context manager is found, or the found manager lacks the
scoped-execution capability, installation is skipped entirely: the resulting
manager is exactly the looked-up one (or still absent), for every header and
install-time context, and the setup still totally produces its result. -/
theorem patch_skipped_without_manager_capability
    (traceparent : Option String) (installActive : Context) (api : OtelContextApi) :
    (lookupContextManager api = none →
      (setupTracing traceparent installActive api).manager = none) ∧
    (∀ m : ContextManager, lookupContextManager api = some m → m.withOp = none →
      (setupTracing traceparent installActive api).manager = some m) := by
  rcases setupTracing_manager_shape traceparent installActive api with hshape | ⟨root, _, hmgr⟩
  · constructor
    · intro hnone
      rw [hshape]
      simp [noPatchSetup, hnone]
    · intro m hm _
      rw [hshape]
      simp [noPatchSetup, hm]
  · constructor
    · intro hnone
      rw [hmgr, hnone]
      rfl
    · intro m hm hwo
      rw [hmgr, hm]
      simp [patchContextManager_of_no_withOp m root hwo]

/-- Witness for C5: a missing manager and a manager without the capability,
at a concrete header. -/
theorem patch_skipped_without_manager_capability_witness :
    (setupTracing (some "00-abc-def-01") emptyContext testApiNoManager).manager = none ∧
    (setupTracing (some "00-abc-def-01") emptyContext testApiNoWith).manager =
      some testManagerNoWith :=
  ⟨(patch_skipped_without_manager_capability (some "00-abc-def-01") emptyContext
      testApiNoManager).1 rfl,
   (patch_skipped_without_manager_capability (some "00-abc-def-01") emptyContext
      testApiNoWith).2 testManagerNoWith rfl rfl⟩

/-- Claim C6: installation replaces only the get-active operation: whatever
manager was looked up, the resulting manager has the same scoped-execution
operation, the only other field of the manager as the source types it. -/
theorem patch_preserves_with_operation
    (traceparent : Option String) (installActive : Context) (api : OtelContextApi)
    (m : ContextManager) (hm : lookupContextManager api = some m) :
    ∃ mp, (setupTracing traceparent installActive api).manager = some mp ∧
      mp.withOp = m.withOp := by
  rcases setupTracing_manager_shape traceparent installActive api with hshape | ⟨root, _, hmgr⟩
  · refine ⟨m, ?_, rfl⟩
    rw [hshape]
    simp [noPatchSetup, hm]
  · refine ⟨patchContextManager m root, ?_, patchContextManager_withOp m root⟩
    rw [hmgr, hm]
    rfl

/-- Witness for C6 at a concrete header and api. -/
theorem patch_preserves_with_operation_witness :
    ∃ mp, (setupTracing (some "00-abc-def-01") emptyContext testApi).manager = some mp ∧
      mp.withOp = testManager.withOp :=
  patch_preserves_with_operation (some "00-abc-def-01") emptyContext testApi
    testManager rfl

/-- Claim C10: the remote parent is constructed, and with it the patch possibly
installed, only when both extracted segments are non-empty strings; the
concrete header with an empty trace-id segment passes the 4-segment check yet
yields exactly the absent-header outcome: nothing constructed and the
looked-up manager untouched. -/
theorem patch_requires_truthy_ids (installActive : Context) (api : OtelContextApi) :
    (∀ traceparent : Option String,
      (setupTracing traceparent installActive api).remoteParent ≠ none →
      ∃ parentTraceId parentSpanId sampled,
        parseTraceparent traceparent = (some parentTraceId, some parentSpanId, sampled) ∧
        parentTraceId ≠ "" ∧ parentSpanId ≠ "") ∧
    ((jsSplit "00--00f067aa0ba902b7-01" '-').length = 4 ∧
      setupTracing (some "00--00f067aa0ba902b7-01") installActive api =
        setupTracing none installActive api ∧
      (setupTracing none installActive api).manager = lookupContextManager api) := by
  refine ⟨?_, by decide, ?_, rfl⟩
  · intro traceparent hrp
    rcases hp : parseTraceparent traceparent with ⟨tid?, sid?, smp⟩
    rcases tid? with _ | tid
    · rw [setupTracing_skip_of_not_truthy traceparent installActive api
        (Or.inl (by rw [hp]; rfl))] at hrp
      simp [noPatchSetup] at hrp
    rcases sid? with _ | sid
    · rw [setupTracing_skip_of_not_truthy traceparent installActive api
        (Or.inr (by rw [hp]; rfl))] at hrp
      simp [noPatchSetup] at hrp
    cases ht : tid.isEmpty
    case true =>
      rw [setupTracing_skip_of_not_truthy traceparent installActive api
        (Or.inl (by rw [hp]; simp [jsTruthyStr, ht]))] at hrp
      simp [noPatchSetup] at hrp
    cases hs : sid.isEmpty
    case true =>
      rw [setupTracing_skip_of_not_truthy traceparent installActive api
        (Or.inr (by rw [hp]; simp [jsTruthyStr, hs]))] at hrp
      simp [noPatchSetup] at hrp
    exact ⟨tid, sid, smp, rfl,
      ne_empty_of_isEmpty_false tid ht, ne_empty_of_isEmpty_false sid hs⟩
  · show setupTracing (some "00--00f067aa0ba902b7-01") installActive api =
      setupTracing none installActive api
    rw [setupTracing_skip_of_not_truthy (some "00--00f067aa0ba902b7-01") installActive api
      (Or.inl (by decide))]
    rfl

/-- Witness for C10: a header whose setup does construct a remote parent has
non-empty ids. -/
theorem patch_requires_truthy_ids_witness :
    ∃ parentTraceId parentSpanId sampled,
      parseTraceparent (some "00-abc-def-01") =
        (some parentTraceId, some parentSpanId, sampled) ∧
      parentTraceId ≠ "" ∧ parentSpanId ≠ "" :=
  (patch_requires_truthy_ids emptyContext testApi).1 (some "00-abc-def-01") (by decide)

/-- Helper: reading the key just written yields the written value. -/
theorem getAttr_setAttr_same (attrs : List (String × String)) (key value : String) :
    getAttr (setAttr attrs key value) key = some value := by
  induction attrs with
  | nil => simp [getAttr, setAttr]
  | cons p rest ih =>
      obtain ⟨k, v⟩ := p
      by_cases h : k == key
      · simp [setAttr, h, getAttr]
      · simp [setAttr, h, getAttr, ih]

/-- Helper: writing one key leaves every other key unchanged. -/
theorem getAttr_setAttr_ne (attrs : List (String × String)) (key value other : String)
    (h : key ≠ other) :
    getAttr (setAttr attrs key value) other = getAttr attrs other := by
  induction attrs with
  | nil => simp [getAttr, setAttr, h]
  | cons p rest ih =>
      obtain ⟨k, v⟩ := p
      by_cases hk : k == key
      · have hkey : k = key := by simpa using hk
        subst hkey
        simp [setAttr, getAttr, h]
      · simp [setAttr, hk, getAttr, ih]

/-- Helper: a falsy left operand makes the JavaScript or-fallback take the
right operand. -/
theorem jsOrStr_of_falsy (a b : Option String) (h : jsTruthyStr a = false) :
    jsOrStr a b = b := by
  cases a with
  | none => rfl
  | some s =>
      simp [jsTruthyStr] at h
      simp [jsOrStr, h]

/-- Helper: setAttribute never changes the span name. -/
theorem setAttribute_name (s : SpanRec) (key value : String) :
    (s.setAttribute key value).name = s.name := rfl

/-- Helper: reading back the key of a conditional write. -/
theorem getAttr_condSetAttribute_same (sp : SpanRec) (key : String) (mv : Option String) :
    getAttr (condSetAttribute sp key mv).attributes key =
      (match mv with
       | some s => if s.isEmpty then getAttr sp.attributes key else some s
       | none => getAttr sp.attributes key) := by
  cases mv with
  | none => rfl
  | some s =>
      by_cases h : s.isEmpty
      · simp [condSetAttribute, h]
      · simp [condSetAttribute, h, SpanRec.setAttribute, getAttr_setAttr_same]

/-- Helper: a conditional write leaves every other key unchanged. -/
theorem getAttr_condSetAttribute_ne (sp : SpanRec) (key other : String)
    (mv : Option String) (h : key ≠ other) :
    getAttr (condSetAttribute sp key mv).attributes other =
      getAttr sp.attributes other := by
  cases mv with
  | none => rfl
  | some s =>
      by_cases hs : s.isEmpty
      · simp [condSetAttribute, hs]
      · simp [condSetAttribute, hs, SpanRec.setAttribute,
          getAttr_setAttr_ne sp.attributes key s other h]

/-- Helper: a conditional write never changes the span name. -/
theorem condSetAttribute_name (sp : SpanRec) (key : String) (mv : Option String) :
    (condSetAttribute sp key mv).name = sp.name := by
  cases mv with
  | none => rfl
  | some s =>
      by_cases hs : s.isEmpty <;> simp [condSetAttribute, hs, SpanRec.setAttribute]

/-- Helper: setAttribute through the record wrapper, other key unchanged. -/
theorem getAttr_setAttribute_ne (sp : SpanRec) (key value other : String)
    (h : key ≠ other) :
    getAttr (sp.setAttribute key value).attributes other =
      getAttr sp.attributes other :=
  getAttr_setAttr_ne sp.attributes key value other h

/-- Helper: setAttribute through the record wrapper, written key read back. -/
theorem getAttr_setAttribute_same (sp : SpanRec) (key value : String) :
    getAttr (sp.setAttribute key value).attributes key = some value :=
  getAttr_setAttr_same sp.attributes key value

/-- Helper: the spanStart handler never changes the span name. -/
theorem spanStartHandler_name (span : SpanRec) :
    (spanStartHandler span).name = span.name := by
  simp only [spanStartHandler]
  split
  · rw [condSetAttribute_name, condSetAttribute_name]
    rfl
  · rfl

/-- Claim C7 counterexample: on a span named `ai.streamText.doStream` whose
`ai.model.id` attribute is present but equal to the empty string, the code
disagrees with the first-present-source rule of the claim: the code falls
through to `gen_ai.request.model` and keeps gpt-4, while the claim demands
the destination be set from the present source `ai.model.id`, i.e. to "". -/
theorem spanStart_first_present_source_fails :
    spanStartHandler cexSpan ≠ spanStartClaimed cexSpan ∧
    getAttr (spanStartHandler cexSpan).attributes "gen_ai.request.model" = some "gpt-4" ∧
    getAttr (spanStartClaimed cexSpan).attributes "gen_ai.request.model" = some "" := by
  refine ⟨by decide, by decide, by decide⟩

/-- Claim C7 as amended: at span start, a span named exactly
`ai.streamText.doStream` or `ai.generateText.doGenerate` keeps its name, is
re-tagged with `sentry.op = gen_ai.chat`, and its canonical model attribute
`gen_ai.request.model` is set from the first source with a truthy (non-empty)
value among `ai.model.id` and `gen_ai.request.model`; the canonical provider
attribute `gen_ai.system` analogously from `ai.model.provider` and
`gen_ai.system`; a present but empty source is skipped, and when no source is
truthy the destination attribute is not written; a span with any other name
is left completely untouched. -/
theorem spanStart_relabels_ai_spans (span : SpanRec) :
    (span.name ≠ "ai.streamText.doStream" → span.name ≠ "ai.generateText.doGenerate" →
      spanStartHandler span = span) ∧
    ((span.name = "ai.streamText.doStream" ∨ span.name = "ai.generateText.doGenerate") →
      (spanStartHandler span).name = span.name ∧
      getAttr (spanStartHandler span).attributes "sentry.op" = some "gen_ai.chat" ∧
      (∀ v, getAttr span.attributes "ai.model.id" = some v → v.isEmpty = false →
        getAttr (spanStartHandler span).attributes "gen_ai.request.model" = some v) ∧
      (jsTruthyStr (getAttr span.attributes "ai.model.id") = false →
        ∀ v, getAttr span.attributes "gen_ai.request.model" = some v → v.isEmpty = false →
          getAttr (spanStartHandler span).attributes "gen_ai.request.model" = some v) ∧
      (jsTruthyStr (getAttr span.attributes "ai.model.id") = false →
        jsTruthyStr (getAttr span.attributes "gen_ai.request.model") = false →
        getAttr (spanStartHandler span).attributes "gen_ai.request.model" =
          getAttr span.attributes "gen_ai.request.model") ∧
      (∀ v, getAttr span.attributes "ai.model.provider" = some v → v.isEmpty = false →
        getAttr (spanStartHandler span).attributes "gen_ai.system" = some v) ∧
      (jsTruthyStr (getAttr span.attributes "ai.model.provider") = false →
        ∀ v, getAttr span.attributes "gen_ai.system" = some v → v.isEmpty = false →
          getAttr (spanStartHandler span).attributes "gen_ai.system" = some v) ∧
      (jsTruthyStr (getAttr span.attributes "ai.model.provider") = false →
        jsTruthyStr (getAttr span.attributes "gen_ai.system") = false →
        getAttr (spanStartHandler span).attributes "gen_ai.system" =
          getAttr span.attributes "gen_ai.system")) := by
  constructor
  · intro h1 h2
    simp [spanStartHandler, h1, h2]
  · intro hname0
    have hname : (span.name == "ai.streamText.doStream" ||
        span.name == "ai.generateText.doGenerate") = true := by
      rcases hname0 with h | h <;> simp [h]
    refine ⟨spanStartHandler_name span, ?_, ?_, ?_, ?_, ?_, ?_, ?_⟩
    · simp only [spanStartHandler, hname, if_true]
      rw [getAttr_condSetAttribute_ne _ "gen_ai.system" "sentry.op" _ (by decide),
          getAttr_condSetAttribute_ne _ "gen_ai.request.model" "sentry.op" _ (by decide)]
      exact getAttr_setAttribute_same span "sentry.op" "gen_ai.chat"
    · intro v hv hvne
      simp only [spanStartHandler, hname, if_true]
      rw [getAttr_condSetAttribute_ne _ "gen_ai.system" "gen_ai.request.model" _ (by decide),
          getAttr_condSetAttribute_same,
          getAttr_setAttribute_ne span "sentry.op" "gen_ai.chat" "ai.model.id" (by decide),
          getAttr_setAttribute_ne span "sentry.op" "gen_ai.chat" "gen_ai.request.model" (by decide),
          hv]
      simp [jsOrStr, hvne]
    · intro hf1 v hv hvne
      simp only [spanStartHandler, hname, if_true]
      rw [getAttr_condSetAttribute_ne _ "gen_ai.system" "gen_ai.request.model" _ (by decide),
          getAttr_condSetAttribute_same,
          getAttr_setAttribute_ne span "sentry.op" "gen_ai.chat" "ai.model.id" (by decide),
          getAttr_setAttribute_ne span "sentry.op" "gen_ai.chat" "gen_ai.request.model" (by decide),
          jsOrStr_of_falsy _ _ hf1, hv]
      simp [hvne]
    · intro hf1 hf2
      simp only [spanStartHandler, hname, if_true]
      rw [getAttr_condSetAttribute_ne _ "gen_ai.system" "gen_ai.request.model" _ (by decide),
          getAttr_condSetAttribute_same,
          getAttr_setAttribute_ne span "sentry.op" "gen_ai.chat" "ai.model.id" (by decide),
          getAttr_setAttribute_ne span "sentry.op" "gen_ai.chat" "gen_ai.request.model" (by decide),
          jsOrStr_of_falsy _ _ hf1]
      rcases hY : getAttr span.attributes "gen_ai.request.model" with _ | s
      · rfl
      · rw [hY] at hf2
        simp [jsTruthyStr] at hf2
        simp [hf2]
    · intro v hv hvne
      simp only [spanStartHandler, hname, if_true]
      rw [getAttr_condSetAttribute_same,
          getAttr_condSetAttribute_ne _ "gen_ai.request.model" "gen_ai.system" _ (by decide),
          getAttr_setAttribute_ne span "sentry.op" "gen_ai.chat" "ai.model.provider" (by decide),
          getAttr_setAttribute_ne span "sentry.op" "gen_ai.chat" "gen_ai.system" (by decide),
          hv]
      simp [jsOrStr, hvne]
    · intro hf1 v hv hvne
      simp only [spanStartHandler, hname, if_true]
      rw [getAttr_condSetAttribute_same,
          getAttr_condSetAttribute_ne _ "gen_ai.request.model" "gen_ai.system" _ (by decide),
          getAttr_setAttribute_ne span "sentry.op" "gen_ai.chat" "ai.model.provider" (by decide),
          getAttr_setAttribute_ne span "sentry.op" "gen_ai.chat" "gen_ai.system" (by decide),
          jsOrStr_of_falsy _ _ hf1, hv]
      simp [hvne]
    · intro hf1 hf2
      simp only [spanStartHandler, hname, if_true]
      rw [getAttr_condSetAttribute_same,
          getAttr_condSetAttribute_ne _ "gen_ai.request.model" "gen_ai.system" _ (by decide),
          getAttr_setAttribute_ne span "sentry.op" "gen_ai.chat" "ai.model.provider" (by decide),
          getAttr_setAttribute_ne span "sentry.op" "gen_ai.chat" "gen_ai.system" (by decide),
          jsOrStr_of_falsy _ _ hf1]
      rcases hY : getAttr span.attributes "gen_ai.system" with _ | s
      · rfl
      · rw [hY] at hf2
        simp [jsTruthyStr] at hf2
        simp [hf2]

/-- Witness for C7 as amended: the example span of the spec ends with
operation label gen_ai.chat and canonical model gpt-4. -/
theorem spanStart_relabels_ai_spans_witness :
    getAttr (spanStartHandler relabelSpan).attributes "gen_ai.request.model" =
      some "gpt-4" ∧
    getAttr (spanStartHandler relabelSpan).attributes "sentry.op" =
      some "gen_ai.chat" :=
  ⟨((spanStart_relabels_ai_spans relabelSpan).2 (Or.inl rfl)).2.2.1 "gpt-4"
      (by decide) (by decide),
   ((spanStart_relabels_ai_spans relabelSpan).2 (Or.inl rfl)).2.1⟩

/-- Claim C8: the session-idle handler records exactly one informational
breadcrumb and then performs exactly one flush call, with the 2000 ms
timeout; per the spec-modelled flush semantics the wait resolves at or before
the 2000 ms bound even when the flush itself never completes. -/
theorem session_idle_flushes_bounded :
    handleEvent Event.sessionIdle =
      [Effect.addBreadcrumb "session" "Session completed" "info" [],
       Effect.flush 2000] ∧
    (∀ flushCompletion : Option Nat, flushWait flushCompletion 2000 ≤ 2000) := by
  refine ⟨rfl, ?_⟩
  intro fc
  cases fc with
  | none => exact le_refl 2000
  | some t => exact min_le_right t 2000

/-- Witness for C8: the bound at a flush that never completes. -/
theorem session_idle_flushes_bounded_witness :
    flushWait none 2000 ≤ 2000 :=
  session_idle_flushes_bounded.2 none

/-- Claim C9 counterexample: result metadata carrying the plain string value
"" as its error, a present non-exception error value, produces no capture at
all, while the claim requires exactly one captured exception whose message is
that string. -/
theorem tool_after_empty_string_error_not_captured :
    toolExecuteAfter "bash" (some (JSVal.str "")) = [] ∧
    toolExecuteAfter "bash" (some (JSVal.str "")) ≠
      [Effect.captureException (JSVal.errObj "")
        [("source", "tool.execute"), ("tool", "bash")]] :=
  ⟨rfl, by decide⟩

/-- Claim C9 as amended: no error in the result metadata produces no capture;
a truthy non-exception error value, i.e. a non-empty string, produces exactly
one captured exception carrying the stringified value as its message, tagged
with source tool.execute and the tool name; an Error value is captured as-is
with the same tags; a falsy error value, such as the empty string, is treated
as no error and produces no capture. -/
theorem tool_after_error_capture (tool : String) (metadataError : Option JSVal) :
    (metadataError = none → toolExecuteAfter tool metadataError = []) ∧
    (∀ s : String, metadataError = some (JSVal.str s) → s ≠ "" →
      toolExecuteAfter tool metadataError =
        [Effect.captureException (JSVal.errObj s)
          [("source", "tool.execute"), ("tool", tool)]]) ∧
    (∀ m : String, metadataError = some (JSVal.errObj m) →
      toolExecuteAfter tool metadataError =
        [Effect.captureException (JSVal.errObj m)
          [("source", "tool.execute"), ("tool", tool)]]) ∧
    (metadataError = some (JSVal.str "") → toolExecuteAfter tool metadataError = []) := by
  refine ⟨?_, ?_, ?_, ?_⟩
  · intro h
    subst h
    rfl
  · intro s h hne
    subst h
    simp [toolExecuteAfter, jsTruthyVal, isEmpty_eq_false_of_ne s hne,
      toException, jsString]
  · intro m h
    subst h
    rfl
  · intro h
    subst h
    rfl

/-- Witness for C9 as amended: a non-empty string error is captured once with
the string as message and both tags. -/
theorem tool_after_error_capture_witness :
    toolExecuteAfter "bash" (some (JSVal.str "boom")) =
      [Effect.captureException (JSVal.errObj "boom")
        [("source", "tool.execute"), ("tool", "bash")]] :=
  (tool_after_error_capture "bash" (some (JSVal.str "boom"))).2.1 "boom" rfl (by decide)

end OpencodeSentry
